import Mathlib

/-!
Shallow embedding of the claude-dev-recorder core (document cache/index,
similarity detection, merge coordination, quality and integrity auditing),
translated from the TypeScript sources:

* `src/mcp/server.ts` (MCPServer: in-memory similarity scoring at creation time)
* `src/services/VectorStore.ts` (DocumentMerger: detection, grouping, merging)
* `src/services/DocumentManager.ts` (record store: create/get/update/archive)
* `src/services/MetadataExtractor.ts` (tag generation)
* `src/services/QualityManager.ts` (quality scoring)
* `src/services/FileWatcher.ts` (IntegrityChecker: recovery loop)

Numbers are modelled as exact rationals (JavaScript numbers used here stay
well within exactly-representable ranges except for the division results
themselves; the claims under study are about the exact arithmetic structure
of the formulas).  External collaborators (embedding generation, the
summarizer, the file contents on disk, Date parsing, uuid generation,
sha256) are parameters of the model.  JavaScript's `NaN` (which arises in
exactly one reachable place, the 0/0 tag-similarity division) is modelled
with `Option`.
-/

namespace DevRecorder

/-! ## JavaScript string and collection primitives -/

/-- Characters matched by the JavaScript regexp class `\s`
(as used in `split(/\s+/)`). -/
def isJsWhitespace (c : Char) : Bool :=
  c.toNat ∈ [9, 10, 11, 12, 13, 32, 0xa0, 0x1680, 0x2028, 0x2029, 0x202f, 0x205f, 0x3000, 0xfeff]
    || (0x2000 ≤ c.toNat && c.toNat ≤ 0x200a)

/-- Worker for `jsSplitWS`: `cur` is the token being accumulated, `inWS`
records whether the previous character belonged to a whitespace run. -/
def jsSplitWSAux : List Char → String → Bool → List String
  | [], cur, _ => [cur]
  | c :: rest, cur, inWS =>
    if isJsWhitespace c then
      if inWS then jsSplitWSAux rest cur true
      else cur :: jsSplitWSAux rest "" true
    else jsSplitWSAux rest (cur.push c) false

/-- JavaScript `s.split(/\s+/)`: split on maximal whitespace runs; a leading
run yields a leading empty token, a trailing run a trailing empty token, and
the empty string yields `[""]`. -/
def jsSplitWS (s : String) : List String :=
  jsSplitWSAux s.data "" false

/-- JavaScript `toLowerCase()` (character-wise lowering; the strings in
this development stay in the range where JS and per-character lowering
agree). -/
def jsToLower (s : String) : String :=
  ⟨s.data.map Char.toLower⟩

/-- JavaScript `s.slice(0, n)` (all strings involved are within the BMP, so
UTF-16 units and code points coincide). -/
def jsTake (s : String) (n : ℕ) : String :=
  ⟨s.data.take n⟩

/-- Worker for `jsSplitChar`. -/
def jsSplitCharAux (c : Char) : List Char → String → List String
  | [], cur => [cur]
  | d :: rest, cur =>
    if d = c then cur :: jsSplitCharAux c rest "" else jsSplitCharAux c rest (cur.push d)

/-- JavaScript `s.split(c)` for a single-character separator: every
occurrence splits, neighbouring occurrences and string edges yield empty
fields, and the empty string yields `[""]`. -/
def jsSplitChar (s : String) (c : Char) : List String :=
  jsSplitCharAux c s.data ""

/-- Worker for `jsDedup` carrying the set of already-seen elements. -/
def jsDedupAux [DecidableEq α] (seen : List α) : List α → List α
  | [] => []
  | a :: l => if a ∈ seen then jsDedupAux seen l else a :: jsDedupAux (a :: seen) l

/-- `Array.from(new Set(l))` in JavaScript: remove duplicates keeping the
first occurrence of each element (insertion order of the `Set`). -/
def jsDedup [DecidableEq α] (l : List α) : List α :=
  jsDedupAux [] l

theorem mem_jsDedupAux [DecidableEq α] (l : List α) (seen : List α) (x : α) :
    x ∈ jsDedupAux seen l ↔ x ∈ l ∧ x ∉ seen := by
  induction l generalizing seen with
  | nil => simp [jsDedupAux]
  | cons a l ih =>
    by_cases ha : a ∈ seen
    · simp only [jsDedupAux, if_pos ha, ih, List.mem_cons]
      by_cases hxa : x = a
      · subst hxa; tauto
      · tauto
    · simp only [jsDedupAux, if_neg ha, List.mem_cons, ih]
      by_cases hxa : x = a
      · subst hxa; tauto
      · tauto

theorem mem_jsDedup [DecidableEq α] (l : List α) (x : α) :
    x ∈ jsDedup l ↔ x ∈ l := by
  simp [jsDedup, mem_jsDedupAux]

theorem nodup_jsDedupAux [DecidableEq α] (l : List α) (seen : List α) :
    (jsDedupAux seen l).Nodup := by
  induction l generalizing seen with
  | nil => simp [jsDedupAux]
  | cons a l ih =>
    by_cases ha : a ∈ seen
    · simpa [jsDedupAux, if_pos ha] using ih seen
    · simp only [jsDedupAux, if_neg ha, List.nodup_cons]
      refine ⟨fun h => ?_, ih (a :: seen)⟩
      exact ((mem_jsDedupAux l (a :: seen) a).mp h).2 (List.mem_cons_self a seen)

theorem nodup_jsDedup [DecidableEq α] (l : List α) : (jsDedup l).Nodup :=
  nodup_jsDedupAux l []

theorem toFinset_jsDedup [DecidableEq α] (l : List α) :
    (jsDedup l).toFinset = l.toFinset := by
  ext x; simp [mem_jsDedup]

theorem length_jsDedup [DecidableEq α] (l : List α) :
    (jsDedup l).length = l.toFinset.card := by
  rw [← toFinset_jsDedup, List.toFinset_card_of_nodup (nodup_jsDedup l)]

/-- The count of distinct elements of `l` that also occur in `l₂`, phrased as
the code phrases it (`[...new Set(l)].filter(x => set(l₂).has(x)).length`),
equals the cardinality of the intersection of the two element sets. -/
theorem length_filter_jsDedup [DecidableEq α] (l l₂ : List α) :
    ((jsDedup l).filter (fun a => a ∈ l₂)).length = (l.toFinset ∩ l₂.toFinset).card := by
  have hnd : ((jsDedup l).filter (fun a => a ∈ l₂)).Nodup := (nodup_jsDedup l).filter _
  rw [← List.toFinset_card_of_nodup hnd]
  congr 1
  ext x
  simp [List.mem_filter, mem_jsDedup, Finset.mem_inter]

/-- Same as `length_filter_jsDedup` for an already duplicate-free list. -/
theorem length_filter_of_nodup [DecidableEq α] (l l₂ : List α) (h : l.Nodup) :
    (l.filter (fun a => a ∈ l₂)).length = (l.toFinset ∩ l₂.toFinset).card := by
  have hnd : (l.filter (fun a => a ∈ l₂)).Nodup := h.filter _
  rw [← List.toFinset_card_of_nodup hnd]
  congr 1
  ext x
  simp [List.mem_filter, Finset.mem_inter]

/-! ## Data model (`src/models/Document.ts`) -/

/-- A change-log entry (`ChangeLogEntry` in `Document.ts`). -/
structure ChangeLogEntry where
  timestamp : String
  action : String
  author : String
  reason : Option String
deriving DecidableEq, Repr

/-- Document metadata (`DocumentMetadata` in `Document.ts`).  Timestamps are
kept as their ISO-8601 strings exactly as stored; conversion to milliseconds
(`new Date(s).getTime()`) is a model parameter.  The JavaScript
`string | string[]` author field is modelled as a list (a singleton for the
single-author case).  The optional quality-mark fields that no studied code
path reads are elided. -/
structure DocumentMetadata where
  id : String
  created : String
  updated : String
  author : List String
  tags : List String
  prompt_hash : String
  related_files : List String
  summary : String
  ultra_summary : String
  standard_summary : String
  embedding_model : String
  version : String
  merged_from : Option (List String) := none
  merge_method : Option String := none
  merge_timestamp : Option String := none
  is_merged : Option Bool := none
  reference_count : Option ℚ := none
  change_log : Option (List ChangeLogEntry) := none
deriving DecidableEq, Repr

/-- A full document (`Document` in `Document.ts`); the memory-only embedding
vector is external and elided. -/
structure Document where
  metadata : DocumentMetadata
  content : String
  file_path : String
deriving DecidableEq, Repr

/-! ## Similarity scoring

`calculateFileOverlap` appears verbatim in both `MCPServer` (`server.ts`)
and `DocumentMerger` (`DocumentMerger.ts`); a single definition embeds both.
-/

/-- `calculateFileOverlap(filesA, filesB)`: 0 when either list is empty,
otherwise the number of distinct paths common to both divided by the larger
LIST length (note: the denominator is `filesA.length`/`filesB.length`, the
raw list lengths, not the deduplicated set sizes). -/
def calculateFileOverlap (filesA filesB : List String) : ℚ :=
  if filesA.length = 0 ∨ filesB.length = 0 then 0
  else (((jsDedup filesA).filter (fun f => f ∈ filesB)).length : ℚ)
    / (max filesA.length filesB.length : ℕ)

/-- `calculateKeywordSimilarity(textA, textB)` from `MCPServer`: word sets
are the lower-cased `split(/\s+/)` tokens; the result is the intersection
size divided by the LARGER set size.  The denominator is never zero because
`split(/\s+/)` always produces at least one (possibly empty-string) token. -/
def calculateKeywordSimilarity (textA textB : String) : ℚ :=
  let wordsA := jsDedup (jsSplitWS (jsToLower textA))
  let wordsB := jsDedup (jsSplitWS (jsToLower textB))
  ((wordsA.filter (fun w => w ∈ wordsB)).length : ℚ) / (max wordsA.length wordsB.length : ℕ)

/-- The per-candidate similarity computed by `MCPServer.findSimilarInMemory`
for a newly created document against one cached document:
`fileOverlap·0.6 + tagSimilarity·0.2 + keywordSimilarity·0.2`, where
`tagSimilarity = |{t ∈ tagsA | t ∈ tagsB}| / max(|tagsA|, |tagsB|)` over the
raw tag LISTS (the numerator keeps duplicate tags of `newDoc`, and the
division is `0/0 = NaN` in JavaScript when both tag lists are empty, which
is modelled as `none`). -/
def findSimilarScore (newDoc doc : DocumentMetadata) : Option ℚ :=
  let fileOverlap := calculateFileOverlap newDoc.related_files doc.related_files
  let commonTags := newDoc.tags.filter (fun t => t ∈ doc.tags)
  let tagDenom := max newDoc.tags.length doc.tags.length
  let keywordSim := calculateKeywordSimilarity newDoc.summary doc.summary
  if tagDenom = 0 then none
  else some (fileOverlap * 0.6 + ((commonTags.length : ℚ) / (tagDenom : ℕ)) * 0.2
    + keywordSim * 0.2)

/-! ### Spec-side scoring definitions

These follow the specification's words (for comparison against the code's
functions above), phrased over honest finite sets. -/

/-- Modelled from the spec: intersection-over-union Jaccard similarity,
0 when either set is empty. -/
def specJaccard (A B : Finset String) : ℚ :=
  if A = ∅ ∨ B = ∅ then 0 else ((A ∩ B).card : ℚ) / ((A ∪ B).card : ℚ)

/-- Modelled from the spec: `fileOverlap = |A∩B| / max(|A|,|B|)` over the
related-path sets, 0 when either set is empty. -/
def specFileOverlap (A B : Finset String) : ℚ :=
  if A = ∅ ∨ B = ∅ then 0 else ((A ∩ B).card : ℚ) / (max A.card B.card : ℕ)

/-- The lower-cased whitespace-tokenized word set of a summary string. -/
def summaryWordSet (s : String) : Finset String :=
  (jsSplitWS (jsToLower s)).toFinset

/-- Modelled from the spec (claim C1's formula): the claimed composite
score `0.6·fileOverlap + 0.2·tagJaccard + 0.2·keywordJaccard` with both
Jaccard factors as intersection-over-union. -/
def specClaimedScore (a b : DocumentMetadata) : ℚ :=
  0.6 * specFileOverlap a.related_files.toFinset b.related_files.toFinset
    + 0.2 * specJaccard a.tags.toFinset b.tags.toFinset
    + 0.2 * specJaccard (summaryWordSet a.summary) (summaryWordSet b.summary)

/-- Overlap coefficient with the larger set in the denominator, the ratio
the code actually uses for tags and keywords (amended claim C1). -/
def overlapCoeff (A B : Finset String) : ℚ :=
  ((A ∩ B).card : ℚ) / (max A.card B.card : ℕ)

/-! ## Quality scoring (`QualityManager.calculateQualityScore`) -/

/-- The four score components returned by `calculateQualityScore`. -/
structure QualityScores where
  freshness : ℚ
  completeness : ℚ
  references : ℚ
  total : ℚ
deriving DecidableEq, Repr

/-- `QualityManager.calculateQualityScore(doc)`: age is
`(Date.now() − new Date(created).getTime()) / 86 400 000` days (`nowMs` and
the Date parser are model parameters); `freshness = max(0, 100 − age)`;
completeness accumulates 40 points for a summary longer than 10
characters, 30 for a non-empty tag list, 30 for a non-empty related-file
list; `references` is `reference_count || 0`; and the total is the weighted
sum `freshness·0.4 + completeness·0.4 + references·0.2`. -/
def calculateQualityScore (nowMs : ℚ) (parseTime : String → ℚ)
    (m : DocumentMetadata) : QualityScores :=
  let ageInDays := (nowMs - parseTime m.created) / (1000 * 60 * 60 * 24)
  let freshness := max 0 (100 - ageInDays)
  let completeness : ℚ :=
    (if 10 < m.summary.length then 40 else 0)
    + (if 0 < m.tags.length then 30 else 0)
    + (if 0 < m.related_files.length then 30 else 0)
  let references := m.reference_count.getD 0
  { freshness := freshness
    completeness := completeness
    references := references
    total := freshness * 0.4 + completeness * 0.4 + references * 0.2 }

/-! ## Integrity recovery (`FileWatcher.ts`, class `IntegrityChecker`) -/

/-- The closed union of integrity-issue kinds (`IntegrityIssue.type`). -/
inductive IssueType where
  | invalid_metadata
  | incomplete_operation
  | file_memory_mismatch
deriving DecidableEq, Repr

/-- An integrity issue found by `checkIntegrity`. -/
structure IntegrityIssue where
  type : IssueType
  docId : Option String := none
  operation : Option String := none
deriving DecidableEq, Repr

/-- The result of `IntegrityChecker.recover`. -/
structure RecoveryResult where
  total : ℕ
  recovered : ℕ
deriving DecidableEq, Repr

/-- One iteration of the recovery loop: each issue kind dispatches to its
fixer (`fixMetadata` / `completeOperation` / `syncFileToMemory`), whose
external effects can fail; `fixOk` is the oracle saying whether the fix
attempt completed without throwing.  On success the counter is incremented;
a thrown error is caught, logged, and the loop continues. -/
def recoverStep (fixOk : IntegrityIssue → Bool) (acc : ℕ) (issue : IntegrityIssue) : ℕ :=
  match issue.type with
  | .invalid_metadata => if fixOk issue then acc + 1 else acc
  | .incomplete_operation => if fixOk issue then acc + 1 else acc
  | .file_memory_mismatch => if fixOk issue then acc + 1 else acc

/-- `IntegrityChecker.recover(issues)`: runs the per-issue recovery loop
and reports the issue count and the number of successful fixes.  (The
trailing audit-log append is an external-sink effect with no bearing on the
returned value.) -/
def recover (fixOk : IntegrityIssue → Bool) (issues : List IntegrityIssue) : RecoveryResult :=
  { total := issues.length
    recovered := issues.foldl (recoverStep fixOk) 0 }

/-! ## Similar-document detection (`DocumentMerger` in `DocumentMerger.ts`) -/

/-- The reason a pair was emitted as a merge candidate. -/
inductive GroupReason where
  | vector_similarity
  | file_overlap
deriving DecidableEq, Repr

/-- A candidate group (`DocumentGroup` in `DocumentMerger.ts`). -/
structure DocumentGroup where
  similarity : ℚ
  documents : List Document
  reason : GroupReason
deriving DecidableEq, Repr

/-- All ordered pairs `(docs[i], docs[j])` with `i < j`, in the exact order
the double loop of `detectSimilarDocuments` visits them. -/
def pairsOf : List α → List (α × α)
  | [] => []
  | d :: rest => rest.map (fun e => (d, e)) ++ pairsOf rest

/-- The merge-candidate predicate of `detectSimilarDocuments`: the
(externally computed) vector similarity reaches the threshold, or the file
overlap reaches 0.5.  `sim` models `calculateVectorSimilarity` (a vector
store query, returning 0 on failure). -/
def isMergeCandidate (sim : Document → Document → ℚ) (threshold : ℚ)
    (docA docB : Document) : Bool :=
  threshold ≤ sim docA docB
    ∨ (1 : ℚ)/2 ≤ calculateFileOverlap docA.metadata.related_files docB.metadata.related_files

/-- The tuple pushed for a candidate pair: similarity is the vector score,
the reason records which disjunct fired (vector similarity wins ties). -/
def candidateTuple (sim : Document → Document → ℚ) (threshold : ℚ)
    (docA docB : Document) : DocumentGroup :=
  { similarity := sim docA docB
    documents := [docA, docB]
    reason := if threshold ≤ sim docA docB then .vector_similarity else .file_overlap }

/-- The pairwise scanning stage of `detectSimilarDocuments`: every candidate
pair, in scan order, as a two-document group. -/
def candidateGroups (sim : Document → Document → ℚ) (threshold : ℚ)
    (allDocs : List Document) : List DocumentGroup :=
  ((pairsOf allDocs).filter (fun p => isMergeCandidate sim threshold p.1 p.2)).map
    (fun p => candidateTuple sim threshold p.1 p.2)

/-- Push a document onto a group's member list unless its id is already
present (the inner absorption loop body of `mergeGroups`). -/
def pushNewDoc (docs : List Document) (d : Document) : List Document :=
  if d.metadata.id ∈ docs.map (fun x => x.metadata.id) then docs else docs ++ [d]

/-- Absorb `other` into `cur`: append each of `other`'s documents whose id
is new, and keep the larger similarity. -/
def absorbGroup (cur other : DocumentGroup) : DocumentGroup :=
  { similarity := max cur.similarity other.similarity
    documents := other.documents.foldl pushNewDoc cur.documents
    reason := cur.reason }

/-- Does `other` share at least one document id with `cur`? -/
def sharesDoc (cur other : DocumentGroup) : Bool :=
  other.documents.any (fun d => d.metadata.id ∈ cur.documents.map (fun x => x.metadata.id))

/-- One inner pass of `mergeGroups`: walk the remaining groups once in
order; each group sharing an id with the growing current group is absorbed
(and the current group keeps growing), the others are kept for later outer
iterations. -/
def absorbPass (g : DocumentGroup) : List DocumentGroup → DocumentGroup × List DocumentGroup
  | [] => (g, [])
  | h :: t =>
    if sharesDoc g h then absorbPass (absorbGroup g h) t
    else
      let r := absorbPass g t
      (r.1, h :: r.2)

theorem absorbPass_length_le (g : DocumentGroup) (l : List DocumentGroup) :
    (absorbPass g l).2.length ≤ l.length := by
  induction l generalizing g with
  | nil => simp [absorbPass]
  | cons h t ih =>
    by_cases hs : sharesDoc g h
    · simpa [absorbPass, hs] using Nat.le_succ_of_le (ih (absorbGroup g h))
    · simpa [absorbPass, hs] using ih g

/-- `DocumentMerger.mergeGroups`: the single forward-pass coalescing of
candidate groups (the `processed` index set of the imperative loop becomes
the list of survivors handed to the recursive call). -/
def mergeGroups : List DocumentGroup → List DocumentGroup
  | [] => []
  | [g] => [g]
  | g :: rest =>
    let r := absorbPass g rest
    r.1 :: mergeGroups r.2
termination_by l => l.length
decreasing_by
  simp only [List.length_cons]
  exact Nat.lt_succ_of_le (absorbPass_length_le _ _)

/-- `DocumentMerger.detectSimilarDocuments` after the active-set fetch:
pairwise scan, candidate filtering, then group coalescing. -/
def detectSimilarDocuments (sim : Document → Document → ℚ) (threshold : ℚ)
    (allDocs : List Document) : List DocumentGroup :=
  mergeGroups (candidateGroups sim threshold allDocs)

/-! ## Tag generation (`MetadataExtractor.ts`) -/

/-- The stop-word set of `extractKeywords`. -/
def stopWords : List String :=
  ["を", "の", "に", "は", "が", "で", "と", "から", "まで", "実装", "作成", "追加", "する", "した"]

/-- `MetadataExtractor.extractKeywords(text)`: lower-case, split on
whitespace, keep words longer than 2 characters that are not stop words,
rank by descending occurrence count (stable, so ties keep first-occurrence
order exactly as the insertion-ordered frequency `Map` and stable `sort`
do), and take the top 5. -/
def extractKeywords (text : String) : List String :=
  let words := (jsSplitWS (jsToLower text)).filter
    (fun w => decide (2 < w.length) && !(stopWords.contains w))
  let entries := (jsDedup words).map (fun w => (w, words.count w))
  ((entries.mergeSort (fun a b => decide (b.2 ≤ a.2))).map (fun e => e.1)).take 5

/-- `MetadataExtractor.generateTags(prompt, files)`: prompt keywords, then
per file the first directory segment (`parts[1]`, when present and
non-empty) and the extension-less base name; deduplicated in insertion
order and capped at 10. -/
def generateTags (prompt : String) (files : List String) : List String :=
  let keywords := extractKeywords prompt
  let fileTags := files.flatMap (fun file =>
    let parts := jsSplitChar file '/'
    let dirTag := match parts.get? 1 with
      | some p => if p = "" then [] else [p]
      | none => []
    let baseTag := match parts.getLast? with
      | some fn =>
        if fn = "" then []
        else match (jsSplitChar fn '.').head? with
          | some bn => if bn = "" then [] else [bn]
          | none => []
      | none => []
    dirTag ++ baseTag)
  (jsDedup (keywords ++ fileTags)).take 10

/-! ## The record store (`DocumentManager.ts`)

The store's state is the list of document files in `.claude/docs` (in
directory-listing order) plus the files moved into the hidden
`.claude/docs/.archive` directory.  `getDocument`/`searchDocuments` read
`readdir(docsDir)` and skip entries starting with a dot, so only `docs` is
ever scanned; serialization to markdown-with-front-matter and reparsing is
assumed to round-trip.  External inputs (clock, Date parsing, git identity,
the summarizer, file contents, sha256, uuid generation) form the
environment. -/

structure Env where
  nowIso : String
  parseTime : String → ℚ
  gitEmail : String
  summarize : String → ℕ → String
  readFile : String → Option String
  sha256 : String → String
  uuids : ℕ → String

structure Store where
  docs : List Document
  archive : List Document
deriving DecidableEq, Repr

/-- Errors surfaced by the document-manager layer (`throw new Error(...)`
sites, classified by the failure kind the message describes). -/
inductive DMError where
  | notFound (id : String)
  | invalidArgument (msg : String)
deriving DecidableEq, Repr

/-- `CreateDocParams` from `Document.ts`. -/
structure CreateDocParams where
  files : List String
  prompt : String
  summary : Option String := none

/-- `generatePromptHash`: `"sha256:" + hex digest`. -/
def generatePromptHash (env : Env) (prompt : String) : String :=
  "sha256:" ++ env.sha256 prompt

/-- `DocumentManager.generateMetadata(files, prompt)`. -/
def generateMetadata (env : Env) (uid : String) (files : List String)
    (prompt : String) : DocumentMetadata :=
  { id := uid
    created := env.nowIso
    updated := env.nowIso
    author := [env.gitEmail]
    tags := generateTags prompt files
    prompt_hash := generatePromptHash env prompt
    related_files := files
    summary := ""
    ultra_summary := ""
    standard_summary := ""
    embedding_model := "nomic-embed-text"
    version := "1.0" }

/-- `DocumentManager.generateContent(files, prompt)`: overview, per-file
500-character previews (unreadable files are skipped with a warning), and
the changed-file list. -/
def generateContent (env : Env) (files : List String) (prompt : String) : String :=
  let fileSections := files.map (fun file =>
    match env.readFile file with
    | some fc => "### " ++ file ++ "\n\n```\n" ++ jsTake fc 500 ++ "\n...\n```\n\n"
    | none => "")
  let changed := files.map (fun f => "- `" ++ f ++ "`\n")
  "## 実装概要\n\n" ++ prompt ++ "\n\n## 実装詳細\n\n" ++ String.join fileSections
    ++ "## 変更ファイル\n\n" ++ String.join changed

/-- Is `c` in `[a-z0-9]` (the characters kept by the file-name slug)? -/
def isSlugChar (c : Char) : Bool :=
  (decide ('a' ≤ c) && decide (c ≤ 'z')) || (decide ('0' ≤ c) && decide (c ≤ '9'))

/-- `summary.replace(/[^a-z0-9]+/g, '-')`: each maximal run of other
characters becomes a single dash. -/
def slugifyAux : List Char → Bool → String
  | [], _ => ""
  | c :: rest, inRun =>
    if isSlugChar c then String.singleton c ++ slugifyAux rest false
    else if inRun then slugifyAux rest true
    else "-" ++ slugifyAux rest true

/-- `DocumentManager.generateFileName(metadata)`:
`YYYY-MM-DD_UUIDSEGMENT_slug.md`. -/
def generateFileName (m : DocumentMetadata) : String :=
  let date := (jsSplitChar m.created 'T').headD ""
  let uuid := (jsSplitChar m.id '-').headD ""
  let slug := jsTake (slugifyAux (jsToLower m.summary).data false) 30
  date ++ "_" ++ uuid ++ "_" ++ slug ++ ".md"

def docsDir : String := ".claude/docs"

/-- `DocumentManager.createDocument(params)`: build metadata, content and
summaries (a custom summary is used only when truthy, i.e. non-empty) and
persist a new file in the docs directory. -/
def createDocument (env : Env) (uid : String) (params : CreateDocParams)
    (store : Store) : Document × Store :=
  let md0 := generateMetadata env uid params.files params.prompt
  let content := generateContent env params.files params.prompt
  let summary := match params.summary with
    | some s => if s = "" then env.summarize content 100 else s
    | none => env.summarize content 100
  let md := { md0 with
    summary := summary
    ultra_summary := env.summarize content 50
    standard_summary := env.summarize content 200 }
  let doc : Document :=
    { metadata := md
      content := content
      file_path := docsDir ++ "/" ++ generateFileName md }
  (doc, { store with docs := store.docs ++ [doc] })

/-- `DocumentManager.getDocument(id)`: scan the (non-hidden) doc files in
listing order and return the first whose parsed id matches. -/
def getDocument (store : Store) (id : String) : Option Document :=
  store.docs.find? (fun d => d.metadata.id == id)

/-- JavaScript `haystack.includes(needle)`. -/
def jsIncludes (hay needle : String) : Bool :=
  hay.data.tails.any (fun t => needle.data.isPrefixOf t)

/-- A search query (`{keyword?, tags?}`). -/
structure SearchQuery where
  keyword : Option String := none
  tags : Option (List String) := none

/-- `DocumentManager.searchDocuments(query)`: filter by case-insensitive
keyword over summary and content and by tag intersection (each filter only
applies when the field is truthy/non-empty), then sort newest-first by
created time (stable). -/
def searchDocuments (env : Env) (q : SearchQuery) (store : Store) : List Document :=
  let results := store.docs.filter (fun d =>
    (match q.keyword with
     | some kw =>
       if kw = "" then true
       else jsIncludes (jsToLower d.metadata.summary) (jsToLower kw)
         || jsIncludes (jsToLower d.content) (jsToLower kw)
     | none => true)
    && (match q.tags with
     | some ts =>
       if ts.length = 0 then true
       else ts.any (fun t => t ∈ d.metadata.tags)
     | none => true))
  results.mergeSort
    (fun a b => decide (env.parseTime b.metadata.created ≤ env.parseTime a.metadata.created))

/-- A `Partial<DocumentMetadata>` patch: a present field overrides the
stored one. -/
structure MetadataPatch where
  id : Option String := none
  created : Option String := none
  updated : Option String := none
  author : Option (List String) := none
  tags : Option (List String) := none
  prompt_hash : Option String := none
  related_files : Option (List String) := none
  summary : Option String := none
  ultra_summary : Option String := none
  standard_summary : Option String := none
  embedding_model : Option String := none
  version : Option String := none
  merged_from : Option (Option (List String)) := none
  merge_method : Option (Option String) := none
  merge_timestamp : Option (Option String) := none
  is_merged : Option (Option Bool) := none
  reference_count : Option (Option ℚ) := none
  change_log : Option (Option (List ChangeLogEntry)) := none

/-- The spread `{...metadata, ...updates}`. -/
def applyPatch (m : DocumentMetadata) (p : MetadataPatch) : DocumentMetadata :=
  { id := p.id.getD m.id
    created := p.created.getD m.created
    updated := p.updated.getD m.updated
    author := p.author.getD m.author
    tags := p.tags.getD m.tags
    prompt_hash := p.prompt_hash.getD m.prompt_hash
    related_files := p.related_files.getD m.related_files
    summary := p.summary.getD m.summary
    ultra_summary := p.ultra_summary.getD m.ultra_summary
    standard_summary := p.standard_summary.getD m.standard_summary
    embedding_model := p.embedding_model.getD m.embedding_model
    version := p.version.getD m.version
    merged_from := p.merged_from.getD m.merged_from
    merge_method := p.merge_method.getD m.merge_method
    merge_timestamp := p.merge_timestamp.getD m.merge_timestamp
    is_merged := p.is_merged.getD m.is_merged
    reference_count := p.reference_count.getD m.reference_count
    change_log := p.change_log.getD m.change_log }

/-- View a full metadata object as a patch with every field present (how
`mergeDocuments` passes `merged.metadata` to `updateDocument`). -/
def MetadataPatch.ofMetadata (m : DocumentMetadata) : MetadataPatch :=
  { id := some m.id
    created := some m.created
    updated := some m.updated
    author := some m.author
    tags := some m.tags
    prompt_hash := some m.prompt_hash
    related_files := some m.related_files
    summary := some m.summary
    ultra_summary := some m.ultra_summary
    standard_summary := some m.standard_summary
    embedding_model := some m.embedding_model
    version := some m.version
    merged_from := some m.merged_from
    merge_method := some m.merge_method
    merge_timestamp := some m.merge_timestamp
    is_merged := some m.is_merged
    reference_count := some m.reference_count
    change_log := some m.change_log }

/-- Overwrite the file of the first stored document with the given id. -/
def replaceFirstById : List Document → String → Document → List Document
  | [], _, _ => []
  | d :: t, id, nd =>
    if d.metadata.id = id then nd :: t else d :: replaceFirstById t id nd

/-- `DocumentManager.updateDocument(id, updates)`: fails `NotFound` when no
stored document has the id; otherwise spreads the patch over the stored
metadata, stamps `updated` with the current time, rewrites that document's
file, and returns the updated document. -/
def updateDocument (env : Env) (id : String) (patch : MetadataPatch)
    (store : Store) : Except DMError Document × Store :=
  match getDocument store id with
  | none => (.error (.notFound id), store)
  | some doc =>
    let md := { applyPatch doc.metadata patch with updated := env.nowIso }
    let nd := { doc with metadata := md }
    (.ok nd, { store with docs := replaceFirstById store.docs id nd })

/-- Drop the file of the first stored document with the given id. -/
def removeFirstById : List Document → String → List Document
  | [], _ => []
  | d :: t, id => if d.metadata.id = id then t else d :: removeFirstById t id

/-- `DocumentManager.archiveDocument(id)`: fails `NotFound` when absent;
otherwise `fs.rename` moves the document's file from the docs directory
into the hidden `.archive` subdirectory. -/
def archiveDocument (id : String) (store : Store) : Except DMError Unit × Store :=
  match getDocument store id with
  | none => (.error (.notFound id), store)
  | some doc =>
    (.ok (), { docs := removeFirstById store.docs id, archive := store.archive ++ [doc] })

/-! ## Merge execution (`DocumentMerger.mergeDocuments` / `executeMerge`) -/

/-- The metadata computed by `DocumentMerger.createMergedMetadata`: unions
(as insertion-ordered sets) of the member files and tags, and the first
member's summary behind a `統合: ` prefix; `none` for an empty group. -/
structure MergedMetadata where
  related_files : List String
  summary : String
  tags : List String
deriving DecidableEq, Repr

def createMergedMetadata (docs : List Document) : Option MergedMetadata :=
  match docs with
  | [] => none
  | firstDoc :: _ =>
    some { related_files := jsDedup (docs.flatMap (fun d => d.metadata.related_files))
           summary := "統合: " ++ firstDoc.metadata.summary
           tags := jsDedup (docs.flatMap (fun d => d.metadata.tags)) }

/-- The prompt `mergeDocuments` passes to `createDocument`:
`統合: ` followed by the member summaries joined with `, `. -/
def mergedPrompt (docs : List Document) : String :=
  "統合: " ++ String.intercalate ", " (docs.map (fun d => d.metadata.summary))

/-- The concatenated member bodies with section headers
(`### ドキュメントN: summary`) joined by `---` separators. -/
def combinedContent (docs : List Document) : String :=
  String.intercalate "\n\n---\n\n" (docs.enum.map (fun p =>
    "### ドキュメント" ++ toString (p.1 + 1) ++ ": " ++ p.2.metadata.summary
      ++ "\n\n" ++ p.2.content))

/-- The unification prompt built by `unifyWithAI` and sent to the
summarizer. -/
def unifyPrompt (combined : String) (docCount : ℕ) : String :=
  "\n以下は同じトピックに関する" ++ toString docCount
    ++ "つの実装ドキュメントです。\nこれらを1つの統合ドキュメントにまとめてください。\n\n要件:\n- 重複する情報は統合\n- 異なる実装内容は両方記載\n- 時系列を保持\n- Markdown形式で出力\n\n"
    ++ combined ++ "\n"

/-- `DocumentMerger.mergeDocuments(docs)`: requires at least two documents
(otherwise the store is untouched and an invalid-argument error is
surfaced); combines the bodies, invokes the summarizer for AI unification
(whose result the code discards), creates the merged document from the
merged metadata, then stamps the merge-lineage fields and the author union
onto it and rewrites its file via `updateDocument`.  Returns the
locally-built merged document. -/
def mergeDocuments (env : Env) (uid : String) (docs : List Document)
    (store : Store) : Except DMError Document × Store :=
  if docs.length < 2 then
    (.error (.invalidArgument "At least 2 documents are required for merging"), store)
  else
    let combined := combinedContent docs
    let _unified := env.summarize (unifyPrompt combined docs.length) 2000
    match createMergedMetadata docs with
    | none => (.error (.invalidArgument "No documents provided for metadata creation"), store)
    | some metadata =>
      let r := createDocument env uid
        { files := metadata.related_files
          prompt := mergedPrompt docs
          summary := some metadata.summary } store
      let md2 := { r.1.metadata with
        merged_from := some (docs.map (fun d => d.metadata.id))
        merge_method := some "ai_unified"
        merge_timestamp := some env.nowIso
        is_merged := some true
        author := jsDedup (docs.flatMap (fun d => d.metadata.author)) }
      let merged2 := { r.1 with metadata := md2 }
      let upd := updateDocument env merged2.metadata.id (MetadataPatch.ofMetadata md2) r.2
      match upd.1 with
      | .error e => (.error e, upd.2)
      | .ok _ => (.ok merged2, upd.2)

/-- The report digested from `executeMerge`'s result text: how many groups
were consolidated and how many source records that covered. -/
structure MergeReport where
  groupsProcessed : ℕ
  recordsConsolidated : ℕ
deriving DecidableEq, Repr

/-- Archive every id in order, propagating the first failure (the archiving
stage of `executeMerge`; the vector-index deletions beside it touch only
the external vector store). -/
def archiveAll : List String → Store → Except DMError Unit × Store
  | [], store => (.ok (), store)
  | id :: rest, store =>
    match archiveDocument id store with
    | (.error e, s) => (.error e, s)
    | (.ok _, s) => archiveAll rest s

/-- The per-group loop of `executeMerge`: merge the group (the k-th fresh
uuid names the merged document), then archive every source member. -/
def runGroups (env : Env) :
    List DocumentGroup → ℕ → ℕ → Store → Except DMError MergeReport × Store
  | [], k, total, store =>
    (.ok { groupsProcessed := k, recordsConsolidated := total }, store)
  | g :: rest, k, total, store =>
    match mergeDocuments env (env.uuids k) g.documents store with
    | (.error e, s) => (.error e, s)
    | (.ok _, s1) =>
      match archiveAll (g.documents.map (fun d => d.metadata.id)) s1 with
      | (.error e, s2) => (.error e, s2)
      | (.ok _, s2) => runGroups env rest (k + 1) (total + g.documents.length) s2

/-- `DocumentMerger.executeMerge(threshold)`: fetch the active set
(`searchDocuments({})`, newest first), detect and coalesce similar groups,
then merge and archive group by group. -/
def executeMerge (env : Env) (sim : Document → Document → ℚ) (threshold : ℚ)
    (store : Store) : Except DMError MergeReport × Store :=
  let allDocs := searchDocuments env {} store
  let groups := detectSimilarDocuments sim threshold allDocs
  if groups.isEmpty then (.ok { groupsProcessed := 0, recordsConsolidated := 0 }, store)
  else runGroups env groups 0 0 store

/-! ## Test fixtures: a concrete environment and documents used to
instantiate the theorems below on concrete inputs. -/

/-- A concrete environment: deterministic stand-ins for the clock, git
identity, summarizer, file system, hashing and uuid generation. -/
def envW : Env :=
  { nowIso := "2024-05-01T12:00:00.000Z"
    parseTime := fun s =>
      if s = "2024-01-02T00:00:00.000Z" then 1704153600000
      else if s = "2024-01-01T00:00:00.000Z" then 1704067200000
      else 0
    gitEmail := "dev@example.com"
    summarize := fun _ _ => "generated summary"
    readFile := fun _ => none
    sha256 := fun _ => "0abc"
    uuids := fun k => "merged-" ++ toString k }

/-- Metadata skeleton for fixtures. -/
def baseMeta : DocumentMetadata :=
  { id := ""
    created := "2024-01-01T00:00:00.000Z"
    updated := "2024-01-01T00:00:00.000Z"
    author := ["dev@example.com"]
    tags := []
    prompt_hash := "sha256:0abc"
    related_files := []
    summary := ""
    ultra_summary := ""
    standard_summary := ""
    embedding_model := "nomic-embed-text"
    version := "1.0" }

/-! ## Claim C10 — integrity recovery accounting -/

theorem recoverStep_le (fixOk : IntegrityIssue → Bool) (acc : ℕ) (i : IntegrityIssue) :
    recoverStep fixOk acc i ≤ acc + 1 := by
  unfold recoverStep
  cases i.type <;> by_cases h : fixOk i <;> simp [h]

theorem foldl_recoverStep_le (fixOk : IntegrityIssue → Bool) (issues : List IntegrityIssue)
    (acc : ℕ) : issues.foldl (recoverStep fixOk) acc ≤ acc + issues.length := by
  induction issues generalizing acc with
  | nil => simp
  | cons i t ih =>
    simp only [List.foldl_cons, List.length_cons]
    calc t.foldl (recoverStep fixOk) (recoverStep fixOk acc i)
        ≤ recoverStep fixOk acc i + t.length := ih _
      _ ≤ acc + (t.length + 1) := by
          have := recoverStep_le fixOk acc i
          omega

theorem foldl_recoverStep_eq (fixOk : IntegrityIssue → Bool) (issues : List IntegrityIssue)
    (acc : ℕ) :
    issues.foldl (recoverStep fixOk) acc = acc + (issues.filter fixOk).length := by
  induction issues generalizing acc with
  | nil => simp
  | cons i t ih =>
    have hstep : recoverStep fixOk acc i = if fixOk i then acc + 1 else acc := by
      unfold recoverStep; cases i.type <;> rfl
    by_cases h : fixOk i
    · simp [hstep, h, ih, Nat.add_comm, Nat.add_assoc, Nat.add_left_comm]
    · simp [hstep, h, ih]

/-- Claim C10: `recover(issues)` reports `total` equal to the number of
input issues and `recovered ≤ total`, and it never raises: each fix
attempt's failure is caught, that issue simply goes uncounted, and the loop
continues — so `recovered` is exactly the number of issues whose fix
attempt succeeded. -/
theorem recover_total_recovered (fixOk : IntegrityIssue → Bool)
    (issues : List IntegrityIssue) :
    (recover fixOk issues).total = issues.length
    ∧ (recover fixOk issues).recovered = (issues.filter fixOk).length
    ∧ (recover fixOk issues).recovered ≤ (recover fixOk issues).total := by
  refine ⟨rfl, ?_, ?_⟩
  · simpa [recover] using foldl_recoverStep_eq fixOk issues 0
  · simpa [recover] using foldl_recoverStep_le fixOk issues 0

/-! ## Claim C6 — merging fewer than two documents -/

/-- Claim C6: `mergeDocuments` on a group with fewer than two members fails
with the invalid-argument error (`At least 2 documents are required for
merging`) before touching anything, leaving the store exactly as it was. -/
theorem mergeDocuments_too_few (env : Env) (uid : String) (docs : List Document)
    (store : Store) (h : docs.length < 2) :
    mergeDocuments env uid docs store
      = (.error (.invalidArgument "At least 2 documents are required for merging"), store) := by
  unfold mergeDocuments
  rw [if_pos h]

/-- Witness for C6: a single-document group fails and the one-document
store is untouched. -/
theorem mergeDocuments_too_few_witness :
    mergeDocuments envW "merged-0" [{ metadata := baseMeta, content := "", file_path := "p" }]
        { docs := [{ metadata := baseMeta, content := "", file_path := "p" }], archive := [] }
      = (.error (.invalidArgument "At least 2 documents are required for merging"),
         { docs := [{ metadata := baseMeta, content := "", file_path := "p" }], archive := [] }) :=
  mergeDocuments_too_few envW "merged-0" _ _ (by decide)

/-! ## Claim C7 — quality scoring -/

/-- A 120-day-old record with no tags, no related files, but a summary
longer than 10 characters. -/
def staleMeta : DocumentMetadata :=
  { baseMeta with id := "q1", summary := "a detailed summary" }

/-- Counterexample for C7 as stated: this record was created 120 days ago
and has no tags and no related files, yet its completeness is 40 (its
summary is longer than 10 characters) and its total is 16, not 0 — the
claim's concrete scenario omits the summary condition its own completeness
formula requires. -/
theorem calculateQualityScore_claim_cex :
    staleMeta.tags = [] ∧ staleMeta.related_files = []
    ∧ (120 * 86400000 - (fun _ => (0 : ℚ)) staleMeta.created) / (1000 * 60 * 60 * 24) = 120
    ∧ (calculateQualityScore (120 * 86400000) (fun _ => 0) staleMeta).freshness = 0
    ∧ (calculateQualityScore (120 * 86400000) (fun _ => 0) staleMeta).completeness = 40
    ∧ (calculateQualityScore (120 * 86400000) (fun _ => 0) staleMeta).total = 16
    ∧ (16 : ℚ) ≠ 0 := by
  have hmax : (0 : ℚ) ⊔ (100 - 120 * 86400000 / (1000 * 60 * 60 * 24)) = 0 := by
    rw [sup_eq_left]
    norm_num
  have hlen : 10 < ("a detailed summary".length) := by decide
  refine ⟨rfl, rfl, by norm_num, ?_, ?_, ?_, by norm_num⟩
  · simp [calculateQualityScore, staleMeta, baseMeta]
    norm_num
  · simp [calculateQualityScore, staleMeta, baseMeta]
    decide
  · simp [calculateQualityScore, staleMeta, baseMeta, hlen]
    rw [hmax]
    norm_num

/-- Claim C7 (amended): the quality score satisfies
`freshness = max(0, 100 − ageInDays)`; completeness is 40 for a summary
longer than 10 characters plus 30 for a non-empty tag set plus 30 for a
non-empty related-path set; `total = 0.4·freshness + 0.4·completeness +
0.2·referenceCount` with `referenceCount` defaulting to 0; and a record
created 120 days ago with no tags, no related files AND a summary of at
most 10 characters scores freshness 0, completeness 0, total 0 (given the
default reference count). -/
theorem calculateQualityScore_spec (nowMs : ℚ) (parseTime : String → ℚ)
    (m : DocumentMetadata) :
    (calculateQualityScore nowMs parseTime m).freshness
        = max 0 (100 - (nowMs - parseTime m.created) / (1000 * 60 * 60 * 24))
    ∧ (calculateQualityScore nowMs parseTime m).completeness
        = (if 10 < m.summary.length then 40 else 0)
          + (if m.tags ≠ [] then 30 else 0) + (if m.related_files ≠ [] then 30 else 0)
    ∧ (calculateQualityScore nowMs parseTime m).total
        = 0.4 * (calculateQualityScore nowMs parseTime m).freshness
          + 0.4 * (calculateQualityScore nowMs parseTime m).completeness
          + 0.2 * m.reference_count.getD 0
    ∧ ((nowMs - parseTime m.created) / (1000 * 60 * 60 * 24) = 120 →
        m.tags = [] → m.related_files = [] → m.summary.length ≤ 10 →
        m.reference_count.getD 0 = 0 →
        (calculateQualityScore nowMs parseTime m).freshness = 0
        ∧ (calculateQualityScore nowMs parseTime m).completeness = 0
        ∧ (calculateQualityScore nowMs parseTime m).total = 0) := by
  unfold calculateQualityScore
  refine ⟨rfl, ?_, by ring, ?_⟩
  · have ht : m.tags ≠ [] ↔ 0 < m.tags.length := by
      simp [List.length_pos]
    have hf : m.related_files ≠ [] ↔ 0 < m.related_files.length := by
      simp [List.length_pos]
    by_cases h1 : 10 < m.summary.length <;> by_cases h2 : 0 < m.tags.length <;>
      by_cases h3 : 0 < m.related_files.length <;>
      simp [h1, h2, h3, ht, hf]
  · intro hage htags hfiles hsum href
    have h1 : ¬ (10 < m.summary.length) := by omega
    have h2 : ¬ (0 < m.tags.length) := by simp [htags]
    have h3 : ¬ (0 < m.related_files.length) := by simp [hfiles]
    rw [hage] at *
    have hmax : max (0 : ℚ) (100 - 120) = 0 := by norm_num
    simp only [hage, hmax, h1, h2, h3, if_neg, href]
    norm_num

/-- Witness for C7: the amended scenario evaluated on a concrete minimal
120-day-old record. -/
theorem calculateQualityScore_spec_witness :
    (calculateQualityScore (120 * 86400000) (fun _ => 0) { baseMeta with id := "q0" }).total
      = 0 :=
  ((calculateQualityScore_spec (120 * 86400000) (fun _ => 0)
    { baseMeta with id := "q0" }).2.2.2 (by norm_num) rfl rfl (by decide) rfl).2.2

/-! ## Claim C9 — file-overlap on nested path sets -/

/-- Counterexample for C9 as stated: the overlap denominator is the raw
list length, so for `A = ["a"]` and `B = ["a","a","b"]` (both non-empty,
set of A ⊆ set of B) the code returns 1/3 while the ratio of the two sets'
cardinalities is 1/2. -/
theorem calculateFileOverlap_subset_cex :
    (∀ a ∈ ["a"], a ∈ ["a", "a", "b"])
    ∧ calculateFileOverlap ["a"] ["a", "a", "b"] = 1/3
    ∧ ((["a"] : List String).toFinset.card : ℚ)
        / ((["a", "a", "b"] : List String).toFinset.card : ℚ) = 1/2
    ∧ (1/3 : ℚ) ≠ 1/2 := by
  refine ⟨by decide, ?_, ?_, by norm_num⟩ <;>
    simp [calculateFileOverlap, jsDedup, jsDedupAux]

/-- Claim C9 (amended): for records whose related-path lists are duplicate
free and non-empty, with A's path set contained in B's, the file overlap is
exactly `|A| / |B|`, the ratio of the two sets' cardinalities. -/
theorem calculateFileOverlap_subset (A B : List String)
    (hA : A.Nodup) (hB : B.Nodup) (hAne : A ≠ []) (hBne : B ≠ [])
    (hsub : ∀ a ∈ A, a ∈ B) :
    calculateFileOverlap A B = (A.toFinset.card : ℚ) / (B.toFinset.card : ℚ) := by
  have hAlen : A.length ≠ 0 := by simpa [List.length_eq_zero] using hAne
  have hBlen : B.length ≠ 0 := by simpa [List.length_eq_zero] using hBne
  have hcards : A.toFinset.card = A.length := List.toFinset_card_of_nodup hA
  have hcardB : B.toFinset.card = B.length := List.toFinset_card_of_nodup hB
  have hsubF : A.toFinset ⊆ B.toFinset := by
    intro x hx
    simp only [List.mem_toFinset] at hx ⊢
    exact hsub x hx
  have hle : A.length ≤ B.length := by
    rw [← hcards, ← hcardB]
    exact Finset.card_le_card hsubF
  have hmax : max A.length B.length = B.length := Nat.max_eq_right hle
  have hinter : A.toFinset ∩ B.toFinset = A.toFinset := Finset.inter_eq_left.mpr hsubF
  unfold calculateFileOverlap
  rw [if_neg (by push_neg; exact ⟨hAlen, hBlen⟩)]
  rw [length_filter_jsDedup, hinter, hmax, hcards, hcardB]

/-- Witness for C9: `["a"]` against `["a","b"]` evaluates to 1/2. -/
theorem calculateFileOverlap_subset_witness :
    calculateFileOverlap ["a"] ["a", "b"] = 1/2 := by
  have h := calculateFileOverlap_subset ["a"] ["a", "b"]
    (by decide) (by decide) (by decide) (by decide) (by decide)
  rw [h]
  simp

/-! ## Claim C1 — the proactive creation-time similarity score -/

/-- Record with the claim's first tag set. -/
def mdA1 : DocumentMetadata := { baseMeta with id := "c1", tags := ["auth", "jwt"], summary := "x" }

/-- Record with the claim's second tag set. -/
def mdB1 : DocumentMetadata := { baseMeta with id := "c2", tags := ["auth", "oauth"], summary := "y" }

/-- Counterexample for C1 as stated: for tags `["auth","jwt"]` versus
`["auth","oauth"]` the code's tag factor is `1/2` (intersection over the
larger set), not the claimed Jaccard `1/3`; the full scores differ
(`1/10` computed versus `1/15` claimed). -/
theorem findSimilarScore_claim_cex :
    mdA1.tags = ["auth", "jwt"] ∧ mdB1.tags = ["auth", "oauth"]
    ∧ findSimilarScore mdA1 mdB1 = some (1/10)
    ∧ specClaimedScore mdA1 mdB1 = 1/15
    ∧ (1/10 : ℚ) ≠ 1/15 := by
  have hA : jsDedup (jsSplitWS (jsToLower "x")) = ["x"] := by decide
  have hB : jsDedup (jsSplitWS (jsToLower "y")) = ["y"] := by decide
  have hA' : jsSplitWS (jsToLower "x") = ["x"] := by decide
  have hB' : jsSplitWS (jsToLower "y") = ["y"] := by decide
  refine ⟨rfl, rfl, ?_, ?_, by norm_num⟩
  · simp [findSimilarScore, mdA1, mdB1, baseMeta, calculateFileOverlap,
      calculateKeywordSimilarity, hA, hB]
    norm_num
  · simp [specClaimedScore, mdA1, mdB1, baseMeta, specFileOverlap, specJaccard,
      summaryWordSet, hA', hB']
    norm_num

theorem calculateFileOverlap_eq_spec (A B : List String)
    (hA : A.Nodup) (hB : B.Nodup) :
    calculateFileOverlap A B = specFileOverlap A.toFinset B.toFinset := by
  unfold calculateFileOverlap specFileOverlap
  have hiffA : A.length = 0 ↔ A.toFinset = ∅ := by
    simp [List.length_eq_zero]
  have hiffB : B.length = 0 ↔ B.toFinset = ∅ := by
    simp [List.length_eq_zero]
  by_cases hc : A.length = 0 ∨ B.length = 0
  · rw [if_pos hc, if_pos (by tauto)]
  · rw [if_neg hc, if_neg (by tauto)]
    rw [length_filter_jsDedup, List.toFinset_card_of_nodup hA, List.toFinset_card_of_nodup hB]

theorem calculateKeywordSimilarity_eq (ta tb : String) :
    calculateKeywordSimilarity ta tb
      = overlapCoeff (summaryWordSet ta) (summaryWordSet tb) := by
  unfold calculateKeywordSimilarity overlapCoeff summaryWordSet
  have hfc : (jsDedup (jsSplitWS (jsToLower ta))).filter
        (fun w => w ∈ jsDedup (jsSplitWS (jsToLower tb)))
      = (jsDedup (jsSplitWS (jsToLower ta))).filter (fun w => w ∈ jsSplitWS (jsToLower tb)) := by
    apply List.filter_congr
    intro x _
    simp [mem_jsDedup]
  simp only [hfc, length_filter_jsDedup, length_jsDedup]

/-- Claim C1 (amended): for records with duplicate-free tag and
related-path lists whose tag lists are not both empty, the proactive
creation-time similarity is
`0.6·fileOverlap + 0.2·tagOverlap + 0.2·keywordOverlap`, where the tag and
keyword factors divide the intersection size by the LARGER of the two set
sizes (not by the union as Jaccard would), the keyword sets being the
lower-cased whitespace-tokenized summary words; `fileOverlap` is 0 when
either path set is empty, and so are the tag/keyword factors when exactly
one of their input sets is empty, but when BOTH tag sets are empty the
whole similarity is NaN (no value) rather than 0.  In particular for tags
`["auth","jwt"]` versus `["auth","oauth"]` the tag factor is 1/2. -/
theorem findSimilarScore_spec (a b : DocumentMetadata)
    (hta : a.tags.Nodup) (htb : b.tags.Nodup)
    (hfa : a.related_files.Nodup) (hfb : b.related_files.Nodup)
    (hne : a.tags ≠ [] ∨ b.tags ≠ []) :
    findSimilarScore a b
      = some (0.6 * specFileOverlap a.related_files.toFinset b.related_files.toFinset
        + 0.2 * overlapCoeff a.tags.toFinset b.tags.toFinset
        + 0.2 * overlapCoeff (summaryWordSet a.summary) (summaryWordSet b.summary)) := by
  unfold findSimilarScore
  have hdenom : ¬ (max a.tags.length b.tags.length = 0) := by
    rw [Nat.max_eq_zero_iff]
    rcases hne with h | h
    · exact fun hc => h (List.length_eq_zero.mp hc.1)
    · exact fun hc => h (List.length_eq_zero.mp hc.2)
  rw [if_neg hdenom]
  have htag2 : overlapCoeff a.tags.toFinset b.tags.toFinset
      = ((a.tags.filter (fun t => t ∈ b.tags)).length : ℚ)
        / ((max a.tags.length b.tags.length : ℕ) : ℚ) := by
    unfold overlapCoeff
    rw [← length_filter_of_nodup _ _ hta, List.toFinset_card_of_nodup hta,
      List.toFinset_card_of_nodup htb]
  rw [calculateFileOverlap_eq_spec _ _ hfa hfb, calculateKeywordSimilarity_eq, htag2]
  ring_nf

/-- Witness for C1: the amended formula evaluated on the concrete
`["auth","jwt"]` versus `["auth","oauth"]` records. -/
theorem findSimilarScore_spec_witness :
    findSimilarScore mdA1 mdB1
      = some (0.6 * specFileOverlap mdA1.related_files.toFinset mdB1.related_files.toFinset
        + 0.2 * overlapCoeff mdA1.tags.toFinset mdB1.tags.toFinset
        + 0.2 * overlapCoeff (summaryWordSet mdA1.summary) (summaryWordSet mdB1.summary)) :=
  findSimilarScore_spec mdA1 mdB1 (by decide) (by decide) (by decide) (by decide)
    (Or.inl (by decide))

/-! ## Claim C5 — the merge-candidate predicate -/

/-- First record of the claim's concrete scenario. -/
def docA5 : Document :=
  { metadata := { baseMeta with id := "s1", related_files := ["a.ts", "b.ts"] }
    content := ""
    file_path := "p1" }

/-- Second record of the claim's concrete scenario. -/
def docB5 : Document :=
  { metadata := { baseMeta with id := "s2", related_files := ["a.ts", "b.ts", "c.ts"] }
    content := ""
    file_path := "p2" }

/-- Claim C5: a scanned pair is emitted as a merge candidate exactly when
the externally-supplied semantic similarity reaches the threshold OR the
file overlap reaches 0.5; and the records with related paths
`["a.ts","b.ts"]` and `["a.ts","b.ts","c.ts"]` have overlap 2/3, hence are
a candidate for every semantic-similarity function and every threshold. -/
theorem mergeCandidate_iff :
    (∀ (sim : Document → Document → ℚ) (threshold : ℚ) (docs : List Document)
      (a b : Document),
      (candidateTuple sim threshold a b ∈ candidateGroups sim threshold docs
        ↔ (a, b) ∈ pairsOf docs
          ∧ (threshold ≤ sim a b
            ∨ (1 : ℚ)/2 ≤ calculateFileOverlap a.metadata.related_files
                b.metadata.related_files)))
    ∧ calculateFileOverlap docA5.metadata.related_files docB5.metadata.related_files = 2/3
    ∧ (∀ (sim : Document → Document → ℚ) (threshold : ℚ),
        isMergeCandidate sim threshold docA5 docB5 = true) := by
  have hov : calculateFileOverlap docA5.metadata.related_files docB5.metadata.related_files
      = 2/3 := by
    simp [calculateFileOverlap, docA5, docB5, baseMeta, jsDedup, jsDedupAux]
  refine ⟨?_, hov, ?_⟩
  · intro sim threshold docs a b
    constructor
    · intro h
      rw [candidateGroups, List.mem_map] at h
      obtain ⟨q, hq, heq⟩ := h
      obtain ⟨qa, qb⟩ := q
      have hd := congrArg DocumentGroup.documents heq
      simp only [candidateTuple] at hd
      have hab : qa = a ∧ qb = b := by simpa using hd
      obtain ⟨rfl, rfl⟩ := hab
      rw [List.mem_filter] at hq
      obtain ⟨hmem, hcand⟩ := hq
      refine ⟨hmem, ?_⟩
      simpa [isMergeCandidate] using hcand
    · rintro ⟨hmem, hcond⟩
      rw [candidateGroups, List.mem_map]
      refine ⟨(a, b), List.mem_filter.mpr ⟨hmem, ?_⟩, rfl⟩
      simpa [isMergeCandidate] using hcond
  · intro sim threshold
    have : (1 : ℚ)/2 ≤ calculateFileOverlap docA5.metadata.related_files
        docB5.metadata.related_files := by
      rw [hov]; norm_num
    simpa [isMergeCandidate] using Or.inr this

/-! ## Claim C8 — updateDocument -/

theorem mem_replaceFirstById (l : List Document) (id : String) (nd d : Document)
    (hd : d ∈ l) (hne : d.metadata.id ≠ id) : d ∈ replaceFirstById l id nd := by
  induction l with
  | nil => cases hd
  | cons x t ih =>
    rcases List.mem_cons.mp hd with rfl | hdt
    · rw [replaceFirstById, if_neg hne]
      exact List.mem_cons_self _ _
    · by_cases hx : x.metadata.id = id
      · rw [replaceFirstById, if_pos hx]
        exact List.mem_cons_of_mem _ hdt
      · rw [replaceFirstById, if_neg hx]
        exact List.mem_cons_of_mem _ (ih hdt)

/-- Claim C8 (amended): `update(id, patch)` fails `NotFound` when no stored
document has the id (leaving the store untouched); on success it returns
the patched record with `updated` stamped to the current time and the
change history exactly as the patch provides it — NO entry is appended:
without a `change_log` field in the patch the stored history is unchanged —
and every stored record with a different id is still in the store. -/
theorem updateDocument_spec (env : Env) (id : String) (patch : MetadataPatch)
    (store : Store) :
    (getDocument store id = none →
      updateDocument env id patch store = (.error (.notFound id), store))
    ∧ (∀ doc, getDocument store id = some doc →
        ∃ nd, updateDocument env id patch store
            = (.ok nd, { store with docs := replaceFirstById store.docs id nd })
          ∧ nd.metadata.updated = env.nowIso
          ∧ nd.metadata.change_log = patch.change_log.getD doc.metadata.change_log
          ∧ nd.content = doc.content
          ∧ (∀ d ∈ store.docs, d.metadata.id ≠ id →
              d ∈ replaceFirstById store.docs id nd)) := by
  constructor
  · intro h
    unfold updateDocument
    rw [h]
  · intro doc h
    unfold updateDocument
    rw [h]
    exact ⟨_, rfl, rfl, rfl, rfl, fun d hd hne => mem_replaceFirstById _ _ _ _ hd hne⟩

/-- A change-log entry already present on a stored record. -/
def entry0 : ChangeLogEntry :=
  { timestamp := "2024-01-01T00:00:00.000Z"
    action := "created"
    author := "dev@example.com"
    reason := none }

/-- A stored document carrying a one-entry change history. -/
def doc8 : Document :=
  { metadata := { baseMeta with id := "d8", change_log := some [entry0] }
    content := "body"
    file_path := ".claude/docs/2024-01-01_d8_.md" }

/-- A store holding only `doc8`. -/
def store8 : Store := { docs := [doc8], archive := [] }

/-- The document `updateDocument` produces for `doc8` under the empty
patch. -/
def upd8 : Document :=
  { doc8 with metadata := { doc8.metadata with updated := envW.nowIso } }

/-- Counterexample for C8 as stated: a successful update with an empty
patch bumps `updated` but appends NOTHING to the change history — the
stored one-entry history stays one entry, while the claim demands exactly
one new entry. -/
theorem updateDocument_changeHistory_cex :
    updateDocument envW "d8" {} store8 = (.ok upd8, { docs := [upd8], archive := [] })
    ∧ upd8.metadata.updated = envW.nowIso
    ∧ upd8.metadata.change_log = doc8.metadata.change_log
    ∧ (upd8.metadata.change_log.getD []).length = 1
    ∧ ¬ ((upd8.metadata.change_log.getD []).length
          = (doc8.metadata.change_log.getD []).length + 1) := by
  refine ⟨rfl, rfl, rfl, rfl, by decide⟩

/-- Witness for C8: both branches exercised on the concrete one-document
store — an unknown id fails `NotFound`, and updating `doc8` with the empty
patch leaves its change history at the stored value. -/
theorem updateDocument_spec_witness :
    updateDocument envW "missing" {} store8 = (.error (.notFound "missing"), store8)
    ∧ ∃ nd, updateDocument envW "d8" {} store8
          = (.ok nd, { store8 with docs := replaceFirstById store8.docs "d8" nd })
        ∧ nd.metadata.updated = envW.nowIso
        ∧ nd.metadata.change_log = ({} : MetadataPatch).change_log.getD doc8.metadata.change_log := by
  constructor
  · exact (updateDocument_spec envW "missing" {} store8).1 rfl
  · obtain ⟨nd, h1, h2, h3, -, -⟩ := (updateDocument_spec envW "d8" {} store8).2 doc8 rfl
    exact ⟨nd, h1, h2, h3⟩

/-! ## Claim C4 — archived records and retrievability -/

theorem find?_removeFirstById_none (l : List Document) (id : String)
    (hnd : (l.map (fun d => d.metadata.id)).Nodup) :
    (removeFirstById l id).find? (fun d => d.metadata.id == id) = none := by
  induction l with
  | nil => rfl
  | cons x t ih =>
    simp only [List.map_cons, List.nodup_cons] at hnd
    obtain ⟨hx, ht⟩ := hnd
    by_cases h : x.metadata.id = id
    · rw [removeFirstById, if_pos h]
      rw [List.find?_eq_none]
      intro d hd
      simp only [beq_iff_eq]
      intro hdid
      exact hx (List.mem_map.mpr ⟨d, hd, by rw [hdid, h]⟩)
    · rw [removeFirstById, if_neg h]
      rw [List.find?_cons_of_neg _ (by simpa using h)]
      exact ih ht

/-- Claim C4 (amended): archiving a stored record (as the merge flow does
for every source record) moves its file into the hidden archive directory:
the record is never deleted — it is in the archive afterwards — but
`getDocument` scans only the non-hidden docs directory, so the archived
record is NOT retrievable by id any more (assuming stored ids are
unique). -/
theorem archiveDocument_spec (store : Store) (id : String) (doc : Document)
    (hnd : (store.docs.map (fun d => d.metadata.id)).Nodup)
    (hget : getDocument store id = some doc) :
    archiveDocument id store
      = (.ok (), { docs := removeFirstById store.docs id, archive := store.archive ++ [doc] })
    ∧ doc ∈ (archiveDocument id store).2.archive
    ∧ getDocument (archiveDocument id store).2 id = none := by
  have heq : archiveDocument id store
      = (.ok (), { docs := removeFirstById store.docs id
                   archive := store.archive ++ [doc] }) := by
    unfold archiveDocument
    rw [hget]
  refine ⟨heq, ?_, ?_⟩
  · rw [heq]
    simp
  · rw [heq]
    exact find?_removeFirstById_none store.docs id hnd

/-- Witness for C4's amended theorem: archiving the only stored document
leaves it in the archive and makes `getDocument` return nothing. -/
theorem archiveDocument_spec_witness :
    doc8 ∈ (archiveDocument "d8" store8).2.archive
    ∧ getDocument (archiveDocument "d8" store8).2 "d8" = none := by
  obtain ⟨-, h2, h3⟩ := archiveDocument_spec store8 "d8" doc8 (by decide) rfl
  exact ⟨h2, h3⟩

/-- Decidable equality for `Except` results (used to evaluate the model on
concrete inputs). -/
instance [DecidableEq ε] [DecidableEq α] : DecidableEq (Except ε α) := fun a b =>
  match a, b with
  | .ok x, .ok y =>
    if h : x = y then .isTrue (congrArg Except.ok h)
    else .isFalse (fun hc => h (Except.ok.inj hc))
  | .error x, .error y =>
    if h : x = y then .isTrue (congrArg Except.error h)
    else .isFalse (fun hc => h (Except.error.inj hc))
  | .ok _, .error _ => .isFalse (fun hc => Except.noConfusion hc)
  | .error _, .ok _ => .isFalse (fun hc => Except.noConfusion hc)

/-! ## Claim C3 — metadata preservation under merge -/

theorem createDocument_related_files (env : Env) (uid : String) (params : CreateDocParams)
    (store : Store) :
    (createDocument env uid params store).1.metadata.related_files = params.files := rfl

theorem createDocument_tags (env : Env) (uid : String) (params : CreateDocParams)
    (store : Store) :
    (createDocument env uid params store).1.metadata.tags
      = generateTags params.prompt params.files := rfl

/-- Claim C3 (amended): whenever `mergeDocuments` returns a merged record,
its related-path set contains every source record's related path (it is
the deduplicated union); its tag set, however, is REGENERATED by
`generateTags` from the merge prompt and the merged file list inside
`createDocument` — the unions computed by `createMergedMetadata` are used
only for the files and the summary, so the merged tags need not contain
the source records' tags. -/
theorem mergeDocuments_metadata_spec (env : Env) (uid : String) (docs : List Document)
    (store : Store) (m : Document)
    (hm : (mergeDocuments env uid docs store).1 = .ok m) :
    (∀ p, (∃ d, d ∈ docs ∧ p ∈ d.metadata.related_files) → p ∈ m.metadata.related_files)
    ∧ m.metadata.tags
        = generateTags (mergedPrompt docs)
            (jsDedup (docs.flatMap (fun d => d.metadata.related_files))) := by
  unfold mergeDocuments at hm
  by_cases hlen : docs.length < 2
  · rw [if_pos hlen] at hm
    simp at hm
  · rw [if_neg hlen] at hm
    cases docs with
    | nil => simp at hlen
    | cons d0 rest =>
      simp only [createMergedMetadata] at hm
      split at hm
      · simp at hm
      · simp only at hm
        obtain rfl := (Except.ok.inj hm).symm
        constructor
        · rintro p ⟨d, hd, hp⟩
          simp only [createDocument_related_files]
          rw [mem_jsDedup]
          simp only [List.flatMap_cons] at *
          rcases List.mem_cons.mp hd with rfl | hdt
          · exact List.mem_append.mpr (Or.inl hp)
          · exact List.mem_append.mpr (Or.inr (List.mem_flatMap.mpr ⟨d, hdt, hp⟩))
        · simp only [createDocument_tags]

/-- A source record tagged `zz`. -/
def dT1 : Document :=
  { metadata := { baseMeta with
      id := "t1"
      tags := ["zz"]
      related_files := ["f"]
      summary := "alpha" }
    content := ""
    file_path := "pT1" }

/-- A second source record tagged `zz`. -/
def dT2 : Document :=
  { metadata := { baseMeta with
      id := "t2"
      tags := ["zz"]
      related_files := ["f"]
      summary := "beta" }
    content := ""
    file_path := "pT2" }

/-- A store holding the two `zz`-tagged source records. -/
def storeT : Store := { docs := [dT1, dT2], archive := [] }

/-- Counterexample for C3 as stated: both source records carry the tag
`zz`, but the merged record's tags are regenerated from the merge prompt
(`統合: alpha, beta`) and the merged file list, yielding
`["統合:", "alpha,", "beta", "f"]` — `zz` is lost, so the merged tag set is
not a superset of the union of the source tag sets. -/
theorem mergeDocuments_tags_cex :
    "zz" ∈ dT1.metadata.tags ∧ "zz" ∈ dT2.metadata.tags
    ∧ ((mergeDocuments envW "m0" [dT1, dT2] storeT).1.map (fun m => m.metadata.tags)
        = Except.ok ["統合:", "alpha,", "beta", "f"])
    ∧ "zz" ∉ ["統合:", "alpha,", "beta", "f"] := by
  refine ⟨by decide, by decide, ?_, by decide⟩
  with_unfolding_all (exact of_decide_eq_true rfl)

set_option maxHeartbeats 1000000 in
/-- Witness for C3: the concrete merge of the two `zz`-tagged records does
return a record, its related paths contain the shared file, and its tags
are exactly the regenerated ones. -/
theorem mergeDocuments_metadata_spec_witness :
    ∃ m, (mergeDocuments envW "m0" [dT1, dT2] storeT).1 = .ok m
      ∧ "f" ∈ m.metadata.related_files
      ∧ m.metadata.tags = generateTags (mergedPrompt [dT1, dT2])
          (jsDedup ([dT1, dT2].flatMap (fun d => d.metadata.related_files))) := by
  have hok : ∃ m, (mergeDocuments envW "m0" [dT1, dT2] storeT).1 = .ok m := by
    with_unfolding_all (exact ⟨_, rfl⟩)
  obtain ⟨m, hm⟩ := hok
  obtain ⟨hsup, htags⟩ := mergeDocuments_metadata_spec envW "m0" [dT1, dT2] storeT m hm
  exact ⟨m, hm, hsup "f" ⟨dT1, by simp, by decide⟩, htags⟩

/-! ## Claim C2 — no shared document id across detected groups -/

/-- A minimal active record for the detection scan. -/
def mkScanDoc (id : String) (files : List String) : Document :=
  { metadata := { baseMeta with id := id, related_files := files }
    content := ""
    file_path := id }

def d20 : Document := mkScanDoc "i0" ["b", "d"]

def d21 : Document := mkScanDoc "i1" ["c", "e"]

def d22 : Document := mkScanDoc "i2" ["a", "b"]

def d23 : Document := mkScanDoc "i3" ["a", "c"]

set_option maxHeartbeats 1000000 in
/-- Claim C2 fails on the code: with four active records whose candidate
pairs are `(i0,i2)`, `(i1,i3)`, `(i2,i3)` (file overlaps 1/2 each, all
semantic similarities 0), the single forward coalescing pass of
`mergeGroups` skips the `(i1,i3)` group while `i0`'s cluster has not yet
absorbed `i3`, then absorbs `(i2,i3)` — so `detectSimilarDocuments`
returns the two groups `{i0,i2,i3}` and `{i1,i3}`, and document `i3`
appears in both. -/
theorem detectSimilarDocuments_shared_id :
    ((detectSimilarDocuments (fun _ _ => 0) 2 [d20, d21, d22, d23]).map
        (fun g => g.documents.map (fun d => d.metadata.id))
      = [["i0", "i2", "i3"], ["i1", "i3"]])
    ∧ ∃ g1 ∈ detectSimilarDocuments (fun _ _ => 0) 2 [d20, d21, d22, d23],
      ∃ g2 ∈ detectSimilarDocuments (fun _ _ => 0) 2 [d20, d21, d22, d23],
        g1 ≠ g2 ∧ "i3" ∈ g1.documents.map (fun d => d.metadata.id)
          ∧ "i3" ∈ g2.documents.map (fun d => d.metadata.id) := by
  constructor <;> with_unfolding_all (exact of_decide_eq_true rfl)

/-! ## Claim C4 — sources after a successful merge -/

/-- First source record of the concrete merge run. -/
def dA4 : Document :=
  { metadata := { baseMeta with
      id := "a1"
      created := "2024-01-02T00:00:00.000Z"
      related_files := ["a.ts"]
      summary := "sA" }
    content := "cA"
    file_path := "pA4" }

/-- Second source record of the concrete merge run. -/
def dB4 : Document :=
  { metadata := { baseMeta with
      id := "b2"
      created := "2024-01-01T00:00:00.000Z"
      related_files := ["a.ts"]
      summary := "sB" }
    content := "cB"
    file_path := "pB4" }

/-- A store holding the two overlapping source records. -/
def store4 : Store := { docs := [dA4, dB4], archive := [] }

set_option maxHeartbeats 4000000 in
/-- Counterexample for C4 as stated: a full `executeMerge` run succeeds
(one group, two records consolidated), both source files are moved — NOT
deleted — into the archive directory unchanged, yet `getDocument` returns
nothing for either source id afterwards, because it scans only the
non-hidden docs directory: archived records are not retrievable by id. -/
theorem executeMerge_sources_not_retrievable_cex :
    ((executeMerge envW (fun _ _ => 0) 2 store4).1
        = .ok { groupsProcessed := 1, recordsConsolidated := 2 })
    ∧ (executeMerge envW (fun _ _ => 0) 2 store4).2.archive = [dA4, dB4]
    ∧ getDocument (executeMerge envW (fun _ _ => 0) 2 store4).2 "a1" = none
    ∧ getDocument (executeMerge envW (fun _ _ => 0) 2 store4).2 "b2" = none := by
  with_unfolding_all (exact of_decide_eq_true rfl)

end DevRecorder
